import Mathlib

/-!
# RoofMaster 360 — cost-estimation engine, formal embedding

Shallow embedding of the cost-estimation core of the RoofMaster 360
application (`src/CostInputScreen.tsx`, with the PDF breakdown table of the
server route in `src/EstimatePreviewScreen.tsx`).

Conventions of the embedding:

* JavaScript `number` arithmetic is embedded as exact arithmetic over `ℚ`
  (and `ℤ`/`ℕ` for quantities that are provably integral).  `Math.round`
  becomes `jsRound` (round half toward `+∞`, i.e. `⌊x + 1/2⌋`, matching
  JS semantics), `Math.ceil` becomes `jsCeil = ⌈·⌉`, and the composite
  `Math.ceil (Math.sqrt n * p / q)` pattern becomes `ceilSqrtMulDiv`, an
  executable function proved below (`ceilSqrtMulDiv_eq_ceil`) to equal the
  exact real-number value `⌈Real.sqrt n * p / q⌉`.
* `roofSquares` is embedded as `ℕ`: the database schema (`src/schema.ts`)
  declares `roofSquares: integer(...)`, and every producer in the sources
  computes it with `Math.ceil` (`CostInputScreen.tsx` line 93,
  `CompanyBrandingScreen.tsx` line 650, `calculateRoofSquares` in the
  server code).
* The React `TextInput` string states `laborRate`, `laborHours`,
  `additionalCosts` are embedded by the numeric value that
  `parseFloat(x) || 0` yields for them, as a `ℚ` field.
* The JS `|| 0` fallbacks on numeric values are the identity on every
  value our embedding can represent (exact rationals have no `NaN`), with
  the one semantically relevant case — a failed object lookup — modelled
  by `Option.getD 0`.
-/

namespace RoofMaster

/-- JS `Math.round`: round half toward `+∞`, i.e. `⌊x + 1/2⌋`. -/
def jsRound (x : ℚ) : ℤ := ⌊x + 1/2⌋

/-- JS `Math.ceil` on an exact rational. -/
def jsCeil (x : ℚ) : ℤ := ⌈x⌉

/-- Least `k : ℕ` with `m ≤ k * k`, i.e. `⌈Real.sqrt m⌉` for a natural `m`. -/
def ceilSqrtNat (m : ℕ) : ℕ :=
  if Nat.sqrt m * Nat.sqrt m = m then Nat.sqrt m else Nat.sqrt m + 1

/-- Executable embedding of the JS pattern `Math.ceil (Math.sqrt n * p / q)`
(for naturals `n`, `p`, `q`, `q > 0`), via the least `k` with
`p^2 * n ≤ k^2 * q^2`.  `ceilSqrtMulDiv_eq_ceil` below proves it equal to
the exact real value `⌈Real.sqrt n * p / q⌉`. -/
def ceilSqrtMulDiv (n p q : ℕ) : ℕ :=
  ceilSqrtNat ((p ^ 2 * n) ⌈/⌉ (q ^ 2))

lemma ceilSqrtNat_le_iff (m k : ℕ) : ceilSqrtNat m ≤ k ↔ m ≤ k * k := by
  unfold ceilSqrtNat
  split
  · rename_i h
    constructor
    · intro hk
      calc m = Nat.sqrt m * Nat.sqrt m := h.symm
        _ ≤ k * k := Nat.mul_le_mul hk hk
    · intro hk
      have h2 := Nat.sqrt_le_sqrt hk
      rwa [Nat.sqrt_eq] at h2
  · rename_i h
    have hlt : Nat.sqrt m * Nat.sqrt m < m := lt_of_le_of_ne (Nat.sqrt_le m) h
    constructor
    · intro hk
      have h2 : m < (Nat.sqrt m + 1) * (Nat.sqrt m + 1) := Nat.lt_succ_sqrt m
      have h3 : (Nat.sqrt m + 1) * (Nat.sqrt m + 1) ≤ k * k := Nat.mul_le_mul hk hk
      omega
    · intro hk
      by_contra hc
      push_neg at hc
      have hk2 : k ≤ Nat.sqrt m := by omega
      have h3 : k * k ≤ Nat.sqrt m * Nat.sqrt m := Nat.mul_le_mul hk2 hk2
      omega

lemma le_sq_ceilSqrtNat (m : ℕ) : m ≤ ceilSqrtNat m * ceilSqrtNat m :=
  (ceilSqrtNat_le_iff m (ceilSqrtNat m)).mp le_rfl

@[gcongr] lemma ceilSqrtNat_mono {a b : ℕ} (h : a ≤ b) : ceilSqrtNat a ≤ ceilSqrtNat b :=
  (ceilSqrtNat_le_iff a (ceilSqrtNat b)).mpr (le_trans h (le_sq_ceilSqrtNat b))

lemma ceilSqrtNat_eval (m k : ℕ) (h1 : m ≤ k * k) (h2 : (k - 1) * (k - 1) < m) :
    ceilSqrtNat m = k := by
  refine le_antisymm ((ceilSqrtNat_le_iff m k).mpr h1) ?_
  by_contra hc
  push_neg at hc
  have h3 : ceilSqrtNat m ≤ k - 1 := by omega
  have h4 := (ceilSqrtNat_le_iff m (k - 1)).mp h3
  omega

lemma ceilSqrtMulDiv_le_iff {n p q : ℕ} (hq : 0 < q) (k : ℕ) :
    ceilSqrtMulDiv n p q ≤ k ↔ p ^ 2 * n ≤ k ^ 2 * q ^ 2 := by
  unfold ceilSqrtMulDiv
  rw [ceilSqrtNat_le_iff, ceilDiv_le_iff_le_mul (by positivity)]
  rw [show q ^ 2 * (k * k) = k ^ 2 * q ^ 2 by ring]

@[gcongr] lemma ceilSqrtMulDiv_mono (p q : ℕ) {a b : ℕ} (h : a ≤ b) :
    ceilSqrtMulDiv a p q ≤ ceilSqrtMulDiv b p q := by
  rcases Nat.eq_zero_or_pos q with hq | hq
  · unfold ceilSqrtMulDiv
    subst hq
    simp
  · rw [ceilSqrtMulDiv_le_iff hq]
    calc p ^ 2 * a ≤ p ^ 2 * b := Nat.mul_le_mul_left _ h
      _ ≤ (ceilSqrtMulDiv b p q) ^ 2 * q ^ 2 :=
        (ceilSqrtMulDiv_le_iff hq _).mp le_rfl

lemma ceilSqrtMulDiv_eval {n p q : ℕ} (hq : 0 < q) (k : ℕ)
    (h1 : p ^ 2 * n ≤ k ^ 2 * q ^ 2) (h2 : (k - 1) ^ 2 * q ^ 2 < p ^ 2 * n) :
    ceilSqrtMulDiv n p q = k := by
  refine le_antisymm ((ceilSqrtMulDiv_le_iff hq k).mpr h1) ?_
  by_contra hc
  push_neg at hc
  have h3 : ceilSqrtMulDiv n p q ≤ k - 1 := by omega
  have h4 := (ceilSqrtMulDiv_le_iff hq (k - 1)).mp h3
  omega

/-- Sanity check of the embedding of `Math.ceil (Math.sqrt n * p / q)`:
`ceilSqrtMulDiv` agrees with the exact real-number value. -/
theorem ceilSqrtMulDiv_eq_ceil (n p q : ℕ) (hq : 0 < q) :
    (ceilSqrtMulDiv n p q : ℤ) = ⌈(Real.sqrt n * p / q : ℝ)⌉ := by
  have hq' : (0:ℝ) < (q:ℝ) := by exact_mod_cast hq
  have hsqn : (0:ℝ) ≤ Real.sqrt n := Real.sqrt_nonneg _
  have hA : p ^ 2 * n ≤ (ceilSqrtMulDiv n p q) ^ 2 * q ^ 2 :=
    (ceilSqrtMulDiv_le_iff hq _).mp le_rfl
  -- upper bound over ℝ: sqrt n * p / q ≤ ceilSqrtMulDiv n p q
  have hub : (Real.sqrt n * p / q : ℝ) ≤ (ceilSqrtMulDiv n p q : ℝ) := by
    have hAr : ((Real.sqrt n * p) ^ 2 : ℝ) ≤ (((ceilSqrtMulDiv n p q : ℝ)) * q) ^ 2 := by
      have h1 : ((p ^ 2 * n : ℕ) : ℝ) ≤ (((ceilSqrtMulDiv n p q) ^ 2 * q ^ 2 : ℕ) : ℝ) := by
        exact_mod_cast hA
      push_cast at h1
      calc (Real.sqrt n * p) ^ 2 = (n : ℝ) * p ^ 2 := by
            rw [mul_pow, Real.sq_sqrt (by positivity)]
        _ ≤ (ceilSqrtMulDiv n p q : ℝ) ^ 2 * q ^ 2 := by linarith
        _ = ((ceilSqrtMulDiv n p q : ℝ) * q) ^ 2 := by ring
    have h2 : Real.sqrt ((Real.sqrt n * p) ^ 2) ≤
        Real.sqrt ((((ceilSqrtMulDiv n p q : ℝ)) * q) ^ 2) := Real.sqrt_le_sqrt hAr
    rw [Real.sqrt_sq (by positivity), Real.sqrt_sq (by positivity)] at h2
    rw [div_le_iff₀ hq']
    exact h2
  -- lower bound over ℝ: ceilSqrtMulDiv n p q - 1 < sqrt n * p / q
  have hlb : (ceilSqrtMulDiv n p q : ℝ) - 1 < Real.sqrt n * p / q := by
    rcases Nat.eq_zero_or_pos (ceilSqrtMulDiv n p q) with h0 | hpos
    · rw [h0]
      have h1 : (0:ℝ) ≤ Real.sqrt n * p / q := by positivity
      push_cast
      linarith
    · have hB : (ceilSqrtMulDiv n p q - 1) ^ 2 * q ^ 2 < p ^ 2 * n := by
        by_contra hc
        push_neg at hc
        have h1 := (ceilSqrtMulDiv_le_iff hq (ceilSqrtMulDiv n p q - 1)).mpr hc
        omega
      have hBr : (((ceilSqrtMulDiv n p q : ℝ) - 1) * q) ^ 2 < (Real.sqrt n * p) ^ 2 := by
        have h1 : (((ceilSqrtMulDiv n p q - 1) ^ 2 * q ^ 2 : ℕ) : ℝ) <
            ((p ^ 2 * n : ℕ) : ℝ) := by exact_mod_cast hB
        have hc1 : ((ceilSqrtMulDiv n p q - 1 : ℕ) : ℝ) =
            (ceilSqrtMulDiv n p q : ℝ) - 1 := by
          push_cast [Nat.cast_sub hpos]
          ring
        push_cast at h1
        rw [hc1] at h1
        calc (((ceilSqrtMulDiv n p q : ℝ) - 1) * q) ^ 2
            = ((ceilSqrtMulDiv n p q : ℝ) - 1) ^ 2 * q ^ 2 := by ring
          _ < (p : ℝ) ^ 2 * n := h1
          _ = (Real.sqrt n * p) ^ 2 := by
            rw [mul_pow, Real.sq_sqrt (by positivity)]
            ring
      have h2 : ((ceilSqrtMulDiv n p q : ℝ) - 1) * q < Real.sqrt n * p := by
        have hnn1 : (0:ℝ) ≤ ((ceilSqrtMulDiv n p q : ℝ) - 1) * q := by
          have h3 : (1:ℝ) ≤ (ceilSqrtMulDiv n p q : ℝ) := by exact_mod_cast hpos
          have h4 : (0:ℝ) ≤ (q:ℝ) := le_of_lt hq'
          nlinarith
        have h5 : Real.sqrt ((((ceilSqrtMulDiv n p q : ℝ) - 1) * q) ^ 2) <
            Real.sqrt ((Real.sqrt n * p) ^ 2) :=
          Real.sqrt_lt_sqrt (sq_nonneg _) hBr
        rwa [Real.sqrt_sq hnn1, Real.sqrt_sq (by positivity)] at h5
      rw [lt_div_iff₀ hq']
      exact h2
  symm
  rw [Int.ceil_eq_iff]
  constructor
  · push_cast
    linarith
  · push_cast
    linarith

@[simp] lemma jsRound_intCast (n : ℤ) : jsRound (n : ℚ) = n := by
  unfold jsRound
  rw [Int.floor_eq_iff]
  constructor
  · linarith
  · linarith

@[simp] lemma jsRound_natCast (n : ℕ) : jsRound (n : ℚ) = n := by
  have := jsRound_intCast (n : ℤ)
  push_cast at this ⊢
  exact this

@[simp] lemma jsRound_int_mul (a b : ℤ) : jsRound ((a : ℚ) * (b : ℚ)) = a * b := by
  rw [show ((a : ℚ) * (b : ℚ)) = ((a * b : ℤ) : ℚ) by push_cast; ring]
  exact jsRound_intCast _

@[simp] lemma jsRound_nat_mul_int (a : ℕ) (b : ℤ) :
    jsRound ((a : ℚ) * (b : ℚ)) = (a : ℤ) * b := by
  rw [show ((a : ℚ) * (b : ℚ)) = (((a : ℤ) * b : ℤ) : ℚ) by push_cast; ring]
  exact jsRound_intCast _

@[simp] lemma jsRound_nat_mul_nat (a b : ℕ) :
    jsRound ((a : ℚ) * (b : ℚ)) = ((a * b : ℕ) : ℤ) := by
  rw [show ((a : ℚ) * (b : ℚ)) = (((a * b : ℕ) : ℤ) : ℚ) by push_cast; ring]
  exact jsRound_intCast _

lemma jsRound_eq_intCast (x : ℚ) (k : ℤ) (h : x = (k : ℚ)) : jsRound x = k := by
  rw [h]
  exact jsRound_intCast k

@[gcongr] lemma jsRound_mono {x y : ℚ} (h : x ≤ y) : jsRound x ≤ jsRound y :=
  Int.floor_le_floor (by linarith)

lemma jsRound_nonneg {x : ℚ} (h : 0 ≤ x) : 0 ≤ jsRound x := by
  unfold jsRound
  rw [show ((0:ℤ) ≤ ⌊x + 1/2⌋) = (((0:ℤ):ℚ) ≤ x + 1/2) from propext Int.le_floor]
  push_cast
  linarith

lemma jsRound_eval (x : ℚ) (k : ℤ) (h1 : (k : ℚ) ≤ x + 1/2) (h2 : x + 1/2 < k + 1) :
    jsRound x = k := by
  unfold jsRound
  rw [Int.floor_eq_iff]
  exact ⟨h1, by exact_mod_cast h2⟩

@[gcongr] lemma jsCeil_mono {x y : ℚ} (h : x ≤ y) : jsCeil x ≤ jsCeil y :=
  Int.ceil_le_ceil h

lemma jsCeil_nonneg {x : ℚ} (h : 0 ≤ x) : 0 ≤ jsCeil x := Int.ceil_nonneg h

lemma jsCeil_eval (x : ℚ) (k : ℤ) (h1 : (k : ℚ) - 1 < x) (h2 : x ≤ k) :
    jsCeil x = k := by
  unfold jsCeil
  rw [Int.ceil_eq_iff]
  exact ⟨by exact_mod_cast h1, h2⟩

/-! ## Data model (`src/CostInputScreen.tsx` lines 19-61) -/

/-- `MaterialType` catalog entry (`CostInputScreen.tsx` lines 19-26). -/
structure MaterialType where
  id : String
  name : String
  basePrice : ℚ
  adjustedPrice : ℚ
  description : String
  icon : String
  deriving Repr, DecidableEq

/-- The static material catalog `MATERIAL_TYPES` (lines 28-61). -/
def MATERIAL_TYPES : List MaterialType :=
  [{ id := "three-tab", name := "Three Tab", basePrice := 450,
     adjustedPrice := 450, description := "Standard asphalt shingles",
     icon := "layers" },
   { id := "architectural", name := "Architectural", basePrice := 500,
     adjustedPrice := 500, description := "Dimensional shingles with depth",
     icon := "grid" },
   { id := "metal-pbr", name := "Metal PBR", basePrice := 800,
     adjustedPrice := 800, description := "Purlin bearing rib metal panels",
     icon := "box" },
   { id := "standing-seam", name := "Standing Seam", basePrice := 1000,
     adjustedPrice := 1000, description := "Premium metal roofing",
     icon := "align-justify" }]

/-- The initial `materialPrices` record state (line 72-74):
`MATERIAL_TYPES.reduce((acc, m) => ({ ...acc, [m.id]: m.basePrice }), {})`,
modelled as an association list. -/
def initialMaterialPrices : List (String × ℚ) :=
  MATERIAL_TYPES.map fun m => (m.id, m.basePrice)

/-- The `CostInputScreen` component state used by the estimator functions
(lines 69-79).  `laborRate`, `laborHours`, `additionalCosts` are the React
`TextInput` strings, embedded by the value `parseFloat(x) || 0` yields;
`projectId` (route param) and `isSubmitting` take no part in the
computation and are carried to state the determinism property. -/
structure CostInputState where
  projectId : String
  selectedMaterial : String
  materialPrices : List (String × ℚ)
  roofSquares : ℕ
  laborRate : ℚ
  laborHours : ℚ
  additionalCosts : ℚ
  isSubmitting : Bool
  deriving Repr, DecidableEq

/-- `getSelectedMaterialPrice` (lines 129-131):
`materialPrices[selectedMaterial] || 0`. -/
def getSelectedMaterialPrice (s : CostInputState) : ℚ :=
  (s.materialPrices.lookup s.selectedMaterial).getD 0

/-- `calculateLaborCost` (lines 137-141):
`(parseFloat(laborRate) || 0) * (parseFloat(laborHours) || 0)`. -/
def calculateLaborCost (s : CostInputState) : ℚ :=
  s.laborRate * s.laborHours

/-- The object returned by `getMicroBreakdown` (lines 211-266), in source
field order.  All quantities and money amounts are integers (`ℤ`) because
every amount field is a `Math.round`/`Math.ceil` result; `laborRate` and
`laborHours` are passed through as raw numbers (`ℚ`). -/
structure MicroBreakdown where
  shingleBundles : ℤ
  shingleCostPerBundle : ℤ
  shingleTotal : ℤ
  wasteBundles : ℤ
  wasteTotal : ℤ
  underlaymentRolls : ℤ
  underlaymentCostPerRoll : ℤ
  underlaymentTotal : ℤ
  iceShieldRolls : ℤ
  iceShieldCostPerRoll : ℤ
  iceShieldTotal : ℤ
  dripEdgePieces : ℤ
  dripEdgeCostPerPiece : ℤ
  dripEdgeTotal : ℤ
  starterStripPieces : ℤ
  starterCostPerPiece : ℤ
  starterTotal : ℤ
  ridgeCapBundles : ℤ
  ridgeCapCostPerBundle : ℤ
  ridgeCapTotal : ℤ
  nailPounds : ℤ
  nailCostPerPound : ℤ
  nailTotal : ℤ
  ventCount : ℤ
  ventCostEach : ℤ
  ventTotal : ℤ
  flashingPieces : ℤ
  flashingCostPerPiece : ℤ
  flashingTotal : ℤ
  labor : ℤ
  laborRate : ℚ
  laborHours : ℚ
  additional : ℤ
  shingles : ℤ
  waste : ℤ
  underlayment : ℤ
  flashing : ℤ
  nails : ℤ
  venting : ℤ
  ridgeCap : ℤ

/-- `getMicroBreakdown` (lines 160-267), embedded line by line.
`Math.sqrt(squares * 100) * 4 / 10` and `Math.sqrt(squares * 100) * 0.4 / 25`
under `Math.ceil` become `ceilSqrtMulDiv (squares * 100) 4 10` and
`ceilSqrtMulDiv (squares * 100) 4 250` (`0.4/25 = 4/250`); see
`ceilSqrtMulDiv_eq_ceil`. -/
def getMicroBreakdown (s : CostInputState) : MicroBreakdown :=
  let laborTotal : ℚ := calculateLaborCost s
  let additional : ℚ := s.additionalCosts
  let pricePerSquare : ℚ := getSelectedMaterialPrice s
  -- `const squares = roofSquares || 1` — the falsy value 0 becomes 1
  let squares : ℕ := if s.roofSquares = 0 then 1 else s.roofSquares
  let isArchitectural : Bool :=
    s.selectedMaterial == "architectural" || s.selectedMaterial == "standing-seam"
  let bundlesPerSquare : ℕ := if isArchitectural then 4 else 3
  let shingleBundles : ℕ := max 1 (squares * bundlesPerSquare)
  let shingleCostPerBundle : ℤ :=
    if 0 < bundlesPerSquare then
      jsRound (pricePerSquare * (62/100) / (bundlesPerSquare : ℚ))
    else 0
  let underlaymentRolls : ℤ := jsCeil ((squares : ℚ) / 3)
  let underlaymentCostPerRoll : ℤ := 45
  let iceShieldRolls : ℤ := jsCeil ((squares : ℚ) * (15/100))
  let iceShieldCostPerRoll : ℤ := 85
  let dripEdgePieces : ℕ := ceilSqrtMulDiv (squares * 100) 4 10
  let dripEdgeCostPerPiece : ℤ := 8
  let starterStripPieces : ℕ := dripEdgePieces
  let starterCostPerPiece : ℤ := 12
  let ridgeCapBundles : ℕ := ceilSqrtMulDiv (squares * 100) 4 250
  let ridgeCapCostPerBundle : ℤ := 55
  let nailPounds : ℕ := squares * 2
  let nailCostPerPound : ℤ := 3
  let ventCount : ℤ := jsCeil ((squares : ℚ) / (3/2))
  let ventCostEach : ℤ := 25
  let flashingPieces : ℤ := jsCeil ((squares : ℚ) * (3/10))
  let flashingCostPerPiece : ℤ := 15
  let wasteSquares : ℤ := jsCeil ((squares : ℚ) * (12/100))
  let wasteBundles : ℤ := wasteSquares * (bundlesPerSquare : ℤ)
  { shingleBundles := (shingleBundles : ℤ)
    shingleCostPerBundle := jsRound (shingleCostPerBundle : ℚ)
    shingleTotal := jsRound ((shingleBundles : ℚ) * (shingleCostPerBundle : ℚ))
    wasteBundles := wasteBundles
    wasteTotal := jsRound ((wasteBundles : ℚ) * (shingleCostPerBundle : ℚ))
    underlaymentRolls := underlaymentRolls
    underlaymentCostPerRoll := underlaymentCostPerRoll
    underlaymentTotal :=
      jsRound ((underlaymentRolls : ℚ) * (underlaymentCostPerRoll : ℚ))
    iceShieldRolls := iceShieldRolls
    iceShieldCostPerRoll := iceShieldCostPerRoll
    iceShieldTotal := jsRound ((iceShieldRolls : ℚ) * (iceShieldCostPerRoll : ℚ))
    dripEdgePieces := (dripEdgePieces : ℤ)
    dripEdgeCostPerPiece := dripEdgeCostPerPiece
    dripEdgeTotal := jsRound ((dripEdgePieces : ℚ) * (dripEdgeCostPerPiece : ℚ))
    starterStripPieces := (starterStripPieces : ℤ)
    starterCostPerPiece := starterCostPerPiece
    starterTotal := jsRound ((starterStripPieces : ℚ) * (starterCostPerPiece : ℚ))
    ridgeCapBundles := (ridgeCapBundles : ℤ)
    ridgeCapCostPerBundle := ridgeCapCostPerBundle
    ridgeCapTotal := jsRound ((ridgeCapBundles : ℚ) * (ridgeCapCostPerBundle : ℚ))
    nailPounds := (nailPounds : ℤ)
    nailCostPerPound := nailCostPerPound
    nailTotal := jsRound ((nailPounds : ℚ) * (nailCostPerPound : ℚ))
    ventCount := ventCount
    ventCostEach := ventCostEach
    ventTotal := jsRound ((ventCount : ℚ) * (ventCostEach : ℚ))
    flashingPieces := flashingPieces
    flashingCostPerPiece := flashingCostPerPiece
    flashingTotal := jsRound ((flashingPieces : ℚ) * (flashingCostPerPiece : ℚ))
    labor := jsRound laborTotal
    laborRate := s.laborRate
    laborHours := s.laborHours
    additional := jsRound additional
    shingles := jsRound ((shingleBundles : ℚ) * (shingleCostPerBundle : ℚ))
    waste := jsRound ((wasteBundles : ℚ) * (shingleCostPerBundle : ℚ))
    underlayment := jsRound ((underlaymentRolls : ℚ) * (underlaymentCostPerRoll : ℚ))
    flashing := jsRound ((flashingPieces : ℚ) * (flashingCostPerPiece : ℚ))
    nails := jsRound ((nailPounds : ℚ) * (nailCostPerPound : ℚ))
    venting := jsRound ((ventCount : ℚ) * (ventCostEach : ℚ))
    ridgeCap := jsRound ((ridgeCapBundles : ℚ) * (ridgeCapCostPerBundle : ℚ)) }

/-- `calculateTotal` (lines 143-149): sum of the ten material line totals
plus labor plus additional costs.  The `(x || 0)` guards are the identity
on our integer amounts. -/
def calculateTotal (s : CostInputState) : ℤ :=
  let b := getMicroBreakdown s
  (b.shingleTotal + b.wasteTotal + b.underlaymentTotal + b.iceShieldTotal +
    b.dripEdgeTotal + b.starterTotal + b.ridgeCapTotal + b.flashingTotal +
    b.ventTotal + b.nailTotal) + b.labor + b.additional

/-- Closed form of `getMicroBreakdown`: the `Math.round` calls applied to
products of integer-valued quantities are the identity, and the
always-true `bundlesPerSquare > 0` ternary is resolved. -/
lemma getMicroBreakdown_eq (s : CostInputState) :
    getMicroBreakdown s =
      (let sq : ℕ := if s.roofSquares = 0 then 1 else s.roofSquares
       let bps : ℕ := if (s.selectedMaterial == "architectural" ||
           s.selectedMaterial == "standing-seam") then 4 else 3
       let cpb : ℤ := jsRound (getSelectedMaterialPrice s * (62/100) / (bps : ℚ))
       { shingleBundles := ((max 1 (sq * bps) : ℕ) : ℤ)
         shingleCostPerBundle := cpb
         shingleTotal := ((max 1 (sq * bps) : ℕ) : ℤ) * cpb
         wasteBundles := jsCeil ((sq : ℚ) * (12/100)) * (bps : ℤ)
         wasteTotal := jsCeil ((sq : ℚ) * (12/100)) * (bps : ℤ) * cpb
         underlaymentRolls := jsCeil ((sq : ℚ) / 3)
         underlaymentCostPerRoll := 45
         underlaymentTotal := jsCeil ((sq : ℚ) / 3) * 45
         iceShieldRolls := jsCeil ((sq : ℚ) * (15/100))
         iceShieldCostPerRoll := 85
         iceShieldTotal := jsCeil ((sq : ℚ) * (15/100)) * 85
         dripEdgePieces := (ceilSqrtMulDiv (sq * 100) 4 10 : ℤ)
         dripEdgeCostPerPiece := 8
         dripEdgeTotal := (ceilSqrtMulDiv (sq * 100) 4 10 : ℤ) * 8
         starterStripPieces := (ceilSqrtMulDiv (sq * 100) 4 10 : ℤ)
         starterCostPerPiece := 12
         starterTotal := (ceilSqrtMulDiv (sq * 100) 4 10 : ℤ) * 12
         ridgeCapBundles := (ceilSqrtMulDiv (sq * 100) 4 250 : ℤ)
         ridgeCapCostPerBundle := 55
         ridgeCapTotal := (ceilSqrtMulDiv (sq * 100) 4 250 : ℤ) * 55
         nailPounds := ((sq * 2 : ℕ) : ℤ)
         nailCostPerPound := 3
         nailTotal := ((sq * 2 : ℕ) : ℤ) * 3
         ventCount := jsCeil ((sq : ℚ) / (3/2))
         ventCostEach := 25
         ventTotal := jsCeil ((sq : ℚ) / (3/2)) * 25
         flashingPieces := jsCeil ((sq : ℚ) * (3/10))
         flashingCostPerPiece := 15
         flashingTotal := jsCeil ((sq : ℚ) * (3/10)) * 15
         labor := jsRound (s.laborRate * s.laborHours)
         laborRate := s.laborRate
         laborHours := s.laborHours
         additional := jsRound s.additionalCosts
         shingles := ((max 1 (sq * bps) : ℕ) : ℤ) * cpb
         waste := jsCeil ((sq : ℚ) * (12/100)) * (bps : ℤ) * cpb
         underlayment := jsCeil ((sq : ℚ) / 3) * 45
         flashing := jsCeil ((sq : ℚ) * (3/10)) * 15
         nails := ((sq * 2 : ℕ) : ℤ) * 3
         venting := jsCeil ((sq : ℚ) / (3/2)) * 25
         ridgeCap := (ceilSqrtMulDiv (sq * 100) 4 250 : ℤ) * 55 }) := by
  unfold getMicroBreakdown calculateLaborCost
  cases hb : (s.selectedMaterial == "architectural" ||
      s.selectedMaterial == "standing-seam") with
  | false =>
    simp only [hb, if_false, Bool.false_eq_true, if_pos, if_neg,
      show (0 : ℕ) < 3 by norm_num, jsRound_intCast, jsRound_int_mul,
      jsRound_nat_mul_int, if_true]
  | true =>
    simp only [hb, if_true, show (0 : ℕ) < 4 by norm_num, jsRound_intCast,
      jsRound_int_mul, jsRound_nat_mul_int]

/-! ## Concrete states used by the examples -/

/-- The state of spec end-to-end example 1: 20 squares of "three-tab" at
the catalog price 450, labor 50 × 40, additional costs 200. -/
def ex1 : CostInputState :=
  { projectId := "p-1", selectedMaterial := "three-tab",
    materialPrices := initialMaterialPrices, roofSquares := 20,
    laborRate := 50, laborHours := 40, additionalCosts := 200,
    isSubmitting := false }

lemma getSelectedMaterialPrice_ex1 : getSelectedMaterialPrice ex1 = 450 := by
  decide

lemma getMicroBreakdown_ex1 :
    getMicroBreakdown ex1 =
      { shingleBundles := 60, shingleCostPerBundle := 93, shingleTotal := 5580,
        wasteBundles := 9, wasteTotal := 837,
        underlaymentRolls := 7, underlaymentCostPerRoll := 45,
        underlaymentTotal := 315,
        iceShieldRolls := 3, iceShieldCostPerRoll := 85, iceShieldTotal := 255,
        dripEdgePieces := 18, dripEdgeCostPerPiece := 8, dripEdgeTotal := 144,
        starterStripPieces := 18, starterCostPerPiece := 12, starterTotal := 216,
        ridgeCapBundles := 1, ridgeCapCostPerBundle := 55, ridgeCapTotal := 55,
        nailPounds := 40, nailCostPerPound := 3, nailTotal := 120,
        ventCount := 14, ventCostEach := 25, ventTotal := 350,
        flashingPieces := 6, flashingCostPerPiece := 15, flashingTotal := 90,
        labor := 2000, laborRate := 50, laborHours := 40, additional := 200,
        shingles := 5580, waste := 837, underlayment := 315, flashing := 90,
        nails := 120, venting := 350, ridgeCap := 55 } := by
  have hmat : ¬("three-tab" = "architectural" ∨ "three-tab" = "standing-seam") := by
    decide
  have hcpb : jsRound ((93 : ℚ)) = 93 :=
    jsRound_eval _ _ (by norm_num) (by norm_num)
  have hwsq : jsCeil ((12 : ℚ) / 5) = 3 :=
    jsCeil_eval _ _ (by norm_num) (by norm_num)
  have hur : jsCeil ((20 : ℚ) / 3) = 7 :=
    jsCeil_eval _ _ (by norm_num) (by norm_num)
  have hir : jsCeil ((3 : ℚ)) = 3 :=
    jsCeil_eval _ _ (by norm_num) (by norm_num)
  have hvc : jsCeil ((40 : ℚ) / 3) = 14 :=
    jsCeil_eval _ _ (by norm_num) (by norm_num)
  have hfp : jsCeil ((6 : ℚ)) = 6 :=
    jsCeil_eval _ _ (by norm_num) (by norm_num)
  have hde : ceilSqrtMulDiv 2000 4 10 = 18 :=
    ceilSqrtMulDiv_eval (by norm_num) 18 (by norm_num) (by norm_num)
  have hrc : ceilSqrtMulDiv 2000 4 250 = 1 :=
    ceilSqrtMulDiv_eval (by norm_num) 1 (by norm_num) (by norm_num)
  have hlab : jsRound ((2000 : ℚ)) = 2000 :=
    jsRound_eval _ _ (by norm_num) (by norm_num)
  have hadd : jsRound ((200 : ℚ)) = 200 :=
    jsRound_eval _ _ (by norm_num) (by norm_num)
  rw [getMicroBreakdown_eq, getSelectedMaterialPrice_ex1]
  norm_num [ex1, hmat, hcpb, hwsq, hur, hir, hvc, hfp,
    hde, hrc, hlab, hadd, MicroBreakdown.mk.injEq]

/-! ## Claim theorems -/

/-- **C1**: for roofSquares=20, material "three-tab" at 450 per square,
laborRate=50, laborHours=40, additionalCosts=200, `getMicroBreakdown`
produces exactly the spec's example-1 quantities and amounts
(shingleBundles=60, …, additional=200) and `calculateTotal` returns 10162. -/
theorem c1_end_to_end_example_one :
    (getMicroBreakdown ex1).shingleBundles = 60 ∧
    (getMicroBreakdown ex1).shingleCostPerBundle = 93 ∧
    (getMicroBreakdown ex1).shingleTotal = 5580 ∧
    (getMicroBreakdown ex1).wasteBundles = 9 ∧
    (getMicroBreakdown ex1).wasteTotal = 837 ∧
    (getMicroBreakdown ex1).underlaymentRolls = 7 ∧
    (getMicroBreakdown ex1).underlaymentTotal = 315 ∧
    (getMicroBreakdown ex1).iceShieldRolls = 3 ∧
    (getMicroBreakdown ex1).iceShieldTotal = 255 ∧
    (getMicroBreakdown ex1).dripEdgePieces = 18 ∧
    (getMicroBreakdown ex1).dripEdgeTotal = 144 ∧
    (getMicroBreakdown ex1).starterStripPieces = 18 ∧
    (getMicroBreakdown ex1).starterTotal = 216 ∧
    (getMicroBreakdown ex1).ridgeCapBundles = 1 ∧
    (getMicroBreakdown ex1).ridgeCapTotal = 55 ∧
    (getMicroBreakdown ex1).flashingPieces = 6 ∧
    (getMicroBreakdown ex1).flashingTotal = 90 ∧
    (getMicroBreakdown ex1).ventCount = 14 ∧
    (getMicroBreakdown ex1).ventTotal = 350 ∧
    (getMicroBreakdown ex1).nailPounds = 40 ∧
    (getMicroBreakdown ex1).nailTotal = 120 ∧
    (getMicroBreakdown ex1).labor = 2000 ∧
    (getMicroBreakdown ex1).additional = 200 ∧
    calculateTotal ex1 = 10162 := by
  norm_num [calculateTotal, getMicroBreakdown_ex1]

/-- **C10**: every breakdown satisfies the legacy-field equalities
`shingles = shingleTotal`, `waste = wasteTotal`,
`underlayment = underlaymentTotal`, `flashing = flashingTotal`,
`nails = nailTotal`, `venting = ventTotal`, `ridgeCap = ridgeCapTotal`,
so consumers reading either field set see the same amounts. -/
theorem c10_legacy_field_equalities (s : CostInputState) :
    (getMicroBreakdown s).shingles = (getMicroBreakdown s).shingleTotal ∧
    (getMicroBreakdown s).waste = (getMicroBreakdown s).wasteTotal ∧
    (getMicroBreakdown s).underlayment = (getMicroBreakdown s).underlaymentTotal ∧
    (getMicroBreakdown s).flashing = (getMicroBreakdown s).flashingTotal ∧
    (getMicroBreakdown s).nails = (getMicroBreakdown s).nailTotal ∧
    (getMicroBreakdown s).venting = (getMicroBreakdown s).ventTotal ∧
    (getMicroBreakdown s).ridgeCap = (getMicroBreakdown s).ridgeCapTotal :=
  ⟨rfl, rfl, rfl, rfl, rfl, rfl, rfl⟩

/-- `getMicroBreakdown` depends on `roofSquares` only through the defaulted
value `roofSquares || 1`. -/
lemma getMicroBreakdown_roofSquares_congr (s : CostInputState) (n : ℕ)
    (h : (if s.roofSquares = 0 then 1 else s.roofSquares) =
         (if n = 0 then 1 else n)) :
    getMicroBreakdown s = getMicroBreakdown { s with roofSquares := n } := by
  unfold getMicroBreakdown calculateLaborCost getSelectedMaterialPrice
  dsimp only
  rw [h]

/-- **C9**: when `roofSquares = 0` (all other inputs fixed),
`getMicroBreakdown` raises no error and returns exactly the breakdown it
would return for `roofSquares = 1` — the falsy value 0 is replaced by the
default 1 (`squares = roofSquares || 1`) — and the resulting material bill
is non-zero (the underlayment line alone is 45). -/
theorem c9_zero_squares_defaults_to_one (s : CostInputState)
    (h : s.roofSquares = 0) :
    getMicroBreakdown s = getMicroBreakdown { s with roofSquares := 1 } ∧
    0 < (getMicroBreakdown s).underlaymentTotal := by
  constructor
  · exact getMicroBreakdown_roofSquares_congr s 1 (by rw [h]; norm_num)
  · rw [getMicroBreakdown_eq]
    have h1 : jsCeil ((3 : ℚ)⁻¹) = 1 := jsCeil_eval _ _ (by norm_num) (by norm_num)
    simp [h, h1]

/-- Witness for C9 at a concrete zero-squares state. -/
theorem c9_zero_squares_defaults_to_one_witness :
    ({ ex1 with roofSquares := 0 } : CostInputState).roofSquares = 0 ∧
    (getMicroBreakdown { ex1 with roofSquares := 0 } =
        getMicroBreakdown { ex1 with roofSquares := 1 } ∧
      0 < (getMicroBreakdown { ex1 with roofSquares := 0 }).underlaymentTotal) :=
  ⟨rfl, c9_zero_squares_defaults_to_one _ rfl⟩

/-- **C7**: the estimator is deterministic — it reads only the six
estimator inputs of the component state; two states agreeing on them (but
possibly differing in `projectId` or `isSubmitting`) yield identical
breakdowns and identical grand totals.  No hidden state, randomness or
time enters `getMicroBreakdown`/`calculateTotal`. -/
theorem c7_determinism (s1 s2 : CostInputState)
    (h1 : s1.selectedMaterial = s2.selectedMaterial)
    (h2 : s1.materialPrices = s2.materialPrices)
    (h3 : s1.roofSquares = s2.roofSquares)
    (h4 : s1.laborRate = s2.laborRate)
    (h5 : s1.laborHours = s2.laborHours)
    (h6 : s1.additionalCosts = s2.additionalCosts) :
    getMicroBreakdown s1 = getMicroBreakdown s2 ∧
    calculateTotal s1 = calculateTotal s2 := by
  obtain ⟨p1, m1, mp1, r1, lr1, lh1, a1, su1⟩ := s1
  obtain ⟨p2, m2, mp2, r2, lr2, lh2, a2, su2⟩ := s2
  dsimp only at h1 h2 h3 h4 h5 h6
  subst h1
  subst h2
  subst h3
  subst h4
  subst h5
  subst h6
  exact ⟨rfl, rfl⟩

/-- Witness for C7: two concrete states differing only in `projectId` and
`isSubmitting` give the same breakdown and total. -/
theorem c7_determinism_witness :
    ex1.selectedMaterial =
        ({ ex1 with projectId := "p-2", isSubmitting := true } :
          CostInputState).selectedMaterial ∧
    ex1.materialPrices =
        ({ ex1 with projectId := "p-2", isSubmitting := true } :
          CostInputState).materialPrices ∧
    ex1.roofSquares =
        ({ ex1 with projectId := "p-2", isSubmitting := true } :
          CostInputState).roofSquares ∧
    ex1.laborRate =
        ({ ex1 with projectId := "p-2", isSubmitting := true } :
          CostInputState).laborRate ∧
    ex1.laborHours =
        ({ ex1 with projectId := "p-2", isSubmitting := true } :
          CostInputState).laborHours ∧
    ex1.additionalCosts =
        ({ ex1 with projectId := "p-2", isSubmitting := true } :
          CostInputState).additionalCosts ∧
    (getMicroBreakdown ex1 =
        getMicroBreakdown { ex1 with projectId := "p-2", isSubmitting := true } ∧
      calculateTotal ex1 =
        calculateTotal { ex1 with projectId := "p-2", isSubmitting := true }) :=
  ⟨rfl, rfl, rfl, rfl, rfl, rfl,
    c7_determinism _ _ rfl rfl rfl rfl rfl rfl⟩

/-- **C2**: for every input with `roofSquares > 0` and a resolvable
material, the shingles/panels line satisfies
`shingleBundles = max(1, round(roofSquares × bundlesPerSquare))`,
`costPerBundle = round(P × 0.62 / bundlesPerSquare)` with `P` the effective
price per square and `bundlesPerSquare = 4` for the
architectural/standing-seam class, 3 otherwise, and
`shingleTotal = round(shingleBundles × costPerBundle)`. -/
theorem c2_shingle_line_item (s : CostInputState) (hpos : 0 < s.roofSquares)
    (_hmat : (s.materialPrices.lookup s.selectedMaterial).isSome = true) :
    (getMicroBreakdown s).shingleBundles =
      max 1 (jsRound ((s.roofSquares : ℚ) *
        ((if s.selectedMaterial = "architectural" ∨
             s.selectedMaterial = "standing-seam" then (4 : ℕ) else 3) : ℚ))) ∧
    (getMicroBreakdown s).shingleCostPerBundle =
      jsRound (getSelectedMaterialPrice s * (62/100) /
        ((if s.selectedMaterial = "architectural" ∨
             s.selectedMaterial = "standing-seam" then (4 : ℕ) else 3) : ℚ)) ∧
    (getMicroBreakdown s).shingleTotal =
      jsRound (((getMicroBreakdown s).shingleBundles : ℚ) *
        ((getMicroBreakdown s).shingleCostPerBundle : ℚ)) := by
  rw [getMicroBreakdown_eq]
  have hsq : (if s.roofSquares = 0 then 1 else s.roofSquares) = s.roofSquares :=
    if_neg (by omega)
  by_cases hc : s.selectedMaterial = "architectural" ∨
      s.selectedMaterial = "standing-seam"
  · have hb : (s.selectedMaterial == "architectural" ||
        s.selectedMaterial == "standing-seam") = true := by
      rcases hc with hc | hc <;> simp [hc]
    simp only [hb, hsq, if_pos hc, if_true]
    refine ⟨?_, by norm_num, ?_⟩
    · push_cast [Nat.cast_max]
      congr 1
      exact (jsRound_eq_intCast _ _ (by push_cast; ring)).symm
    · exact (jsRound_eq_intCast _ _ (by push_cast; ring)).symm
  · have hb : (s.selectedMaterial == "architectural" ||
        s.selectedMaterial == "standing-seam") = false := by
      push_neg at hc
      simp [hc.1, hc.2]
    simp only [hb, hsq, if_neg hc, Bool.false_eq_true, if_false]
    refine ⟨?_, by norm_num, ?_⟩
    · push_cast [Nat.cast_max]
      congr 1
      exact (jsRound_eq_intCast _ _ (by push_cast; ring)).symm
    · exact (jsRound_eq_intCast _ _ (by push_cast; ring)).symm

/-- Witness for C2 at the example-1 state. -/
theorem c2_shingle_line_item_witness :
    0 < ex1.roofSquares ∧
    (ex1.materialPrices.lookup ex1.selectedMaterial).isSome = true ∧
    ((getMicroBreakdown ex1).shingleBundles =
      max 1 (jsRound ((ex1.roofSquares : ℚ) *
        ((if ex1.selectedMaterial = "architectural" ∨
             ex1.selectedMaterial = "standing-seam" then (4 : ℕ) else 3) : ℚ))) ∧
    (getMicroBreakdown ex1).shingleCostPerBundle =
      jsRound (getSelectedMaterialPrice ex1 * (62/100) /
        ((if ex1.selectedMaterial = "architectural" ∨
             ex1.selectedMaterial = "standing-seam" then (4 : ℕ) else 3) : ℚ)) ∧
    (getMicroBreakdown ex1).shingleTotal =
      jsRound (((getMicroBreakdown ex1).shingleBundles : ℚ) *
        ((getMicroBreakdown ex1).shingleCostPerBundle : ℚ))) :=
  ⟨by decide, by decide, c2_shingle_line_item ex1 (by decide) (by decide)⟩

/-- **C5**: for every input with `roofSquares > 0`, the waste allowance is
the two-step method through squares: `wasteBundles = ceil(S × 0.12) ×
bundlesPerSquare`, and `wasteTotal = round(wasteBundles × costPerBundle)`
with exactly the per-bundle unit cost of the shingles line. -/
theorem c5_waste_two_step (s : CostInputState) (hpos : 0 < s.roofSquares) :
    (getMicroBreakdown s).wasteBundles =
      jsCeil ((s.roofSquares : ℚ) * (12/100)) *
        (if s.selectedMaterial = "architectural" ∨
             s.selectedMaterial = "standing-seam" then (4 : ℤ) else 3) ∧
    (getMicroBreakdown s).wasteTotal =
      jsRound (((getMicroBreakdown s).wasteBundles : ℚ) *
        ((getMicroBreakdown s).shingleCostPerBundle : ℚ)) := by
  rw [getMicroBreakdown_eq]
  have hsq : (if s.roofSquares = 0 then 1 else s.roofSquares) = s.roofSquares :=
    if_neg (by omega)
  by_cases hc : s.selectedMaterial = "architectural" ∨
      s.selectedMaterial = "standing-seam"
  · have hb : (s.selectedMaterial == "architectural" ||
        s.selectedMaterial == "standing-seam") = true := by
      rcases hc with hc | hc <;> simp [hc]
    simp only [hb, hsq, if_pos hc, if_true]
    refine ⟨by norm_num, ?_⟩
    exact (jsRound_eq_intCast _ _ (by push_cast; ring)).symm
  · have hb : (s.selectedMaterial == "architectural" ||
        s.selectedMaterial == "standing-seam") = false := by
      push_neg at hc
      simp [hc.1, hc.2]
    simp only [hb, hsq, if_neg hc, Bool.false_eq_true, if_false]
    refine ⟨by norm_num, ?_⟩
    exact (jsRound_eq_intCast _ _ (by push_cast; ring)).symm

/-- Witness for C5 at the example-1 state. -/
theorem c5_waste_two_step_witness :
    0 < ex1.roofSquares ∧
    ((getMicroBreakdown ex1).wasteBundles =
      jsCeil ((ex1.roofSquares : ℚ) * (12/100)) *
        (if ex1.selectedMaterial = "architectural" ∨
             ex1.selectedMaterial = "standing-seam" then (4 : ℤ) else 3) ∧
    (getMicroBreakdown ex1).wasteTotal =
      jsRound (((getMicroBreakdown ex1).wasteBundles : ℚ) *
        ((getMicroBreakdown ex1).shingleCostPerBundle : ℚ))) :=
  ⟨by decide, c5_waste_two_step ex1 (by decide)⟩

/-- State with `roofSquares = 0` and a negative `laborRate` — an input the
spec's error clause covers. -/
def ex0 : CostInputState := { ex1 with roofSquares := 0, laborRate := -5 }

lemma getMicroBreakdown_ex0 :
    getMicroBreakdown ex0 =
      { shingleBundles := 3, shingleCostPerBundle := 93, shingleTotal := 279,
        wasteBundles := 3, wasteTotal := 279,
        underlaymentRolls := 1, underlaymentCostPerRoll := 45,
        underlaymentTotal := 45,
        iceShieldRolls := 1, iceShieldCostPerRoll := 85, iceShieldTotal := 85,
        dripEdgePieces := 4, dripEdgeCostPerPiece := 8, dripEdgeTotal := 32,
        starterStripPieces := 4, starterCostPerPiece := 12, starterTotal := 48,
        ridgeCapBundles := 1, ridgeCapCostPerBundle := 55, ridgeCapTotal := 55,
        nailPounds := 2, nailCostPerPound := 3, nailTotal := 6,
        ventCount := 1, ventCostEach := 25, ventTotal := 25,
        flashingPieces := 1, flashingCostPerPiece := 15, flashingTotal := 15,
        labor := -200, laborRate := -5, laborHours := 40, additional := 200,
        shingles := 279, waste := 279, underlayment := 45, flashing := 15,
        nails := 6, venting := 25, ridgeCap := 55 } := by
  have hmat : ¬("three-tab" = "architectural" ∨ "three-tab" = "standing-seam") := by
    decide
  have hcpb : jsRound ((93 : ℚ)) = 93 :=
    jsRound_eval _ _ (by norm_num) (by norm_num)
  have hwsq : jsCeil ((3 : ℚ) / 25) = 1 :=
    jsCeil_eval _ _ (by norm_num) (by norm_num)
  have hur : jsCeil ((3 : ℚ)⁻¹) = 1 :=
    jsCeil_eval _ _ (by norm_num) (by norm_num)
  have hur2 : jsCeil ((1 : ℚ) / 3) = 1 :=
    jsCeil_eval _ _ (by norm_num) (by norm_num)
  have hir : jsCeil ((3 : ℚ) / 20) = 1 :=
    jsCeil_eval _ _ (by norm_num) (by norm_num)
  have hvc : jsCeil ((2 : ℚ) / 3) = 1 :=
    jsCeil_eval _ _ (by norm_num) (by norm_num)
  have hfp : jsCeil ((3 : ℚ) / 10) = 1 :=
    jsCeil_eval _ _ (by norm_num) (by norm_num)
  have hde : ceilSqrtMulDiv 100 4 10 = 4 :=
    ceilSqrtMulDiv_eval (by norm_num) 4 (by norm_num) (by norm_num)
  have hrc : ceilSqrtMulDiv 100 4 250 = 1 :=
    ceilSqrtMulDiv_eval (by norm_num) 1 (by norm_num) (by norm_num)
  have hlab : jsRound ((-200 : ℚ)) = -200 :=
    jsRound_eval _ _ (by norm_num) (by norm_num)
  have hadd : jsRound ((200 : ℚ)) = 200 :=
    jsRound_eval _ _ (by norm_num) (by norm_num)
  have hp : getSelectedMaterialPrice ex0 = 450 := by decide
  rw [getMicroBreakdown_eq, hp]
  norm_num [ex0, ex1, hmat, hcpb, hwsq, hur, hur2, hir, hvc, hfp,
    hde, hrc, hlab, hadd, MicroBreakdown.mk.injEq]

/-- **C3 counterexample**: at `roofSquares = 0` and `laborRate = -5` — an
input for which the claim demands failure with `InvalidInputError` and no
breakdown — `getMicroBreakdown` raises nothing and returns a complete
breakdown (negative labor included), and `calculateTotal` returns 869. -/
theorem c3_counterexample :
    ex0.roofSquares = 0 ∧ ex0.laborRate < 0 ∧
    (getMicroBreakdown ex0).labor = -200 ∧
    (getMicroBreakdown ex0).shingleTotal = 279 ∧
    (getMicroBreakdown ex0).underlaymentTotal = 45 ∧
    calculateTotal ex0 = 869 := by
  norm_num [calculateTotal, getMicroBreakdown_ex0]
  constructor
  · rfl
  · norm_num [ex0, ex1]

/-- **C3 (amended)**: the estimator has no error path.  When
`roofSquares = 0` or a monetary field is negative, `getMicroBreakdown`
still returns a breakdown: the falsy `roofSquares` is defaulted to 1
(`squares = roofSquares || 1`, i.e. `max 1 roofSquares`), and negative
labor/additional values flow through as `labor = round(rate × hours)` and
`additional = round(additionalCosts)`. -/
theorem c3_no_error_path (s : CostInputState)
    (_h : s.roofSquares = 0 ∨ s.laborRate < 0 ∨ s.laborHours < 0 ∨
      s.additionalCosts < 0) :
    getMicroBreakdown s =
      getMicroBreakdown { s with roofSquares := max 1 s.roofSquares } ∧
    (getMicroBreakdown s).labor = jsRound (s.laborRate * s.laborHours) ∧
    (getMicroBreakdown s).additional = jsRound s.additionalCosts := by
  refine ⟨?_, rfl, rfl⟩
  apply getMicroBreakdown_roofSquares_congr
  rcases Nat.eq_zero_or_pos s.roofSquares with h0 | h0
  · rw [h0]
    norm_num
  · rw [if_neg (by omega), if_neg (by omega)]
    omega

/-- Witness for the amended C3 at the concrete state `ex0`. -/
theorem c3_no_error_path_witness :
    (ex0.roofSquares = 0 ∨ ex0.laborRate < 0 ∨ ex0.laborHours < 0 ∨
      ex0.additionalCosts < 0) ∧
    (getMicroBreakdown ex0 =
        getMicroBreakdown { ex0 with roofSquares := max 1 ex0.roofSquares } ∧
      (getMicroBreakdown ex0).labor = jsRound (ex0.laborRate * ex0.laborHours) ∧
      (getMicroBreakdown ex0).additional = jsRound ex0.additionalCosts) :=
  ⟨Or.inl rfl, c3_no_error_path ex0 (Or.inl rfl)⟩

/-- State selecting the unknown material id "asphalt-deluxe". -/
def exUnknown : CostInputState := { ex1 with selectedMaterial := "asphalt-deluxe" }

lemma getMicroBreakdown_exUnknown :
    getMicroBreakdown exUnknown =
      { shingleBundles := 60, shingleCostPerBundle := 0, shingleTotal := 0,
        wasteBundles := 9, wasteTotal := 0,
        underlaymentRolls := 7, underlaymentCostPerRoll := 45,
        underlaymentTotal := 315,
        iceShieldRolls := 3, iceShieldCostPerRoll := 85, iceShieldTotal := 255,
        dripEdgePieces := 18, dripEdgeCostPerPiece := 8, dripEdgeTotal := 144,
        starterStripPieces := 18, starterCostPerPiece := 12, starterTotal := 216,
        ridgeCapBundles := 1, ridgeCapCostPerBundle := 55, ridgeCapTotal := 55,
        nailPounds := 40, nailCostPerPound := 3, nailTotal := 120,
        ventCount := 14, ventCostEach := 25, ventTotal := 350,
        flashingPieces := 6, flashingCostPerPiece := 15, flashingTotal := 90,
        labor := 2000, laborRate := 50, laborHours := 40, additional := 200,
        shingles := 0, waste := 0, underlayment := 315, flashing := 90,
        nails := 120, venting := 350, ridgeCap := 55 } := by
  have hmat : ¬("asphalt-deluxe" = "architectural" ∨
      "asphalt-deluxe" = "standing-seam") := by decide
  have hcpb : jsRound ((0 : ℚ)) = 0 :=
    jsRound_eval _ _ (by norm_num) (by norm_num)
  have hwsq : jsCeil ((12 : ℚ) / 5) = 3 :=
    jsCeil_eval _ _ (by norm_num) (by norm_num)
  have hur : jsCeil ((20 : ℚ) / 3) = 7 :=
    jsCeil_eval _ _ (by norm_num) (by norm_num)
  have hir : jsCeil ((3 : ℚ)) = 3 :=
    jsCeil_eval _ _ (by norm_num) (by norm_num)
  have hvc : jsCeil ((40 : ℚ) / 3) = 14 :=
    jsCeil_eval _ _ (by norm_num) (by norm_num)
  have hfp : jsCeil ((6 : ℚ)) = 6 :=
    jsCeil_eval _ _ (by norm_num) (by norm_num)
  have hde : ceilSqrtMulDiv 2000 4 10 = 18 :=
    ceilSqrtMulDiv_eval (by norm_num) 18 (by norm_num) (by norm_num)
  have hrc : ceilSqrtMulDiv 2000 4 250 = 1 :=
    ceilSqrtMulDiv_eval (by norm_num) 1 (by norm_num) (by norm_num)
  have hlab : jsRound ((2000 : ℚ)) = 2000 :=
    jsRound_eval _ _ (by norm_num) (by norm_num)
  have hadd : jsRound ((200 : ℚ)) = 200 :=
    jsRound_eval _ _ (by norm_num) (by norm_num)
  have hp : getSelectedMaterialPrice exUnknown = 0 := by decide
  rw [getMicroBreakdown_eq, hp]
  norm_num [exUnknown, ex1, hmat, hcpb, hwsq, hur, hir, hvc, hfp,
    hde, hrc, hlab, hadd, MicroBreakdown.mk.injEq]

/-- **C4 counterexample**: with the unknown material "asphalt-deluxe" the
claim demands `UnknownMaterialError` and no partial breakdown; instead the
lookup falls back to price 0 (`materialPrices[selectedMaterial] || 0`), a
complete breakdown is produced whose shingle and waste lines are silently
zero-priced, and `calculateTotal` returns the fabricated total 3745. -/
theorem c4_counterexample :
    exUnknown.materialPrices.lookup exUnknown.selectedMaterial = none ∧
    (getMicroBreakdown exUnknown).shingleCostPerBundle = 0 ∧
    (getMicroBreakdown exUnknown).shingleTotal = 0 ∧
    (getMicroBreakdown exUnknown).wasteTotal = 0 ∧
    (getMicroBreakdown exUnknown).underlaymentTotal = 315 ∧
    calculateTotal exUnknown = 3745 ∧
    0 < calculateTotal exUnknown := by
  refine ⟨by decide, ?_⟩
  norm_num [calculateTotal, getMicroBreakdown_exUnknown]

/-- **C4 (amended)**: an unresolvable `selectedMaterial` never fails; the
price lookup falls back to 0, so the breakdown is produced with zero-priced
shingle and waste lines while every accessory line, labor and additional
costs are still charged, and `calculateTotal` returns their sum. -/
theorem c4_unknown_material_defaults_to_zero_price (s : CostInputState)
    (h : s.materialPrices.lookup s.selectedMaterial = none) :
    getSelectedMaterialPrice s = 0 ∧
    (getMicroBreakdown s).shingleCostPerBundle = 0 ∧
    (getMicroBreakdown s).shingleTotal = 0 ∧
    (getMicroBreakdown s).wasteTotal = 0 ∧
    calculateTotal s =
      (getMicroBreakdown s).underlaymentTotal +
      (getMicroBreakdown s).iceShieldTotal +
      (getMicroBreakdown s).dripEdgeTotal +
      (getMicroBreakdown s).starterTotal +
      (getMicroBreakdown s).ridgeCapTotal +
      (getMicroBreakdown s).flashingTotal +
      (getMicroBreakdown s).ventTotal +
      (getMicroBreakdown s).nailTotal +
      (getMicroBreakdown s).labor +
      (getMicroBreakdown s).additional := by
  have hp : getSelectedMaterialPrice s = 0 := by
    unfold getSelectedMaterialPrice
    rw [h]
    rfl
  have hcpb : jsRound (getSelectedMaterialPrice s * (62/100) /
      (↑(if (s.selectedMaterial == "architectural" ||
          s.selectedMaterial == "standing-seam") then (4 : ℕ) else 3) : ℚ)) = 0 := by
    rw [hp]
    exact jsRound_eq_intCast _ 0 (by push_cast; ring)
  refine ⟨hp, ?_, ?_, ?_, ?_⟩
  · simp only [getMicroBreakdown_eq, hcpb]
  · simp only [getMicroBreakdown_eq, hcpb, mul_zero]
  · simp only [getMicroBreakdown_eq, hcpb, mul_zero]
  · simp only [calculateTotal, getMicroBreakdown_eq, hcpb, mul_zero,
      zero_add, add_zero]

/-- Witness for the amended C4 at the concrete state `exUnknown`. -/
theorem c4_unknown_material_defaults_to_zero_price_witness :
    exUnknown.materialPrices.lookup exUnknown.selectedMaterial = none ∧
    (getSelectedMaterialPrice exUnknown = 0 ∧
      (getMicroBreakdown exUnknown).shingleCostPerBundle = 0 ∧
      (getMicroBreakdown exUnknown).shingleTotal = 0 ∧
      (getMicroBreakdown exUnknown).wasteTotal = 0 ∧
      calculateTotal exUnknown =
        (getMicroBreakdown exUnknown).underlaymentTotal +
        (getMicroBreakdown exUnknown).iceShieldTotal +
        (getMicroBreakdown exUnknown).dripEdgeTotal +
        (getMicroBreakdown exUnknown).starterTotal +
        (getMicroBreakdown exUnknown).ridgeCapTotal +
        (getMicroBreakdown exUnknown).flashingTotal +
        (getMicroBreakdown exUnknown).ventTotal +
        (getMicroBreakdown exUnknown).nailTotal +
        (getMicroBreakdown exUnknown).labor +
        (getMicroBreakdown exUnknown).additional) :=
  ⟨by decide, c4_unknown_material_defaults_to_zero_price exUnknown (by decide)⟩

/-- **C6**: for valid inputs (positive squares, non-negative effective
price, all other fields fixed), increasing `roofSquares` never decreases
the grand total returned by `calculateTotal`. -/
theorem c6_total_monotone_in_squares (s : CostInputState) (n m : ℕ)
    (h0 : 0 < n) (hnm : n ≤ m) (hP : 0 ≤ getSelectedMaterialPrice s) :
    calculateTotal { s with roofSquares := n } ≤
      calculateTotal { s with roofSquares := m } := by
  have hm0 : 0 < m := lt_of_lt_of_le h0 hnm
  unfold calculateTotal
  rw [getMicroBreakdown_eq, getMicroBreakdown_eq]
  unfold getSelectedMaterialPrice at *
  dsimp only
  rw [if_neg h0.ne', if_neg hm0.ne']
  cases hb : (s.selectedMaterial == "architectural" ||
      s.selectedMaterial == "standing-seam") with
  | false =>
    simp only [hb, Bool.false_eq_true, if_false]
    have hcpb : 0 ≤ jsRound
        (((s.materialPrices.lookup s.selectedMaterial).getD 0 : ℚ) *
          (62/100) / ((3 : ℕ) : ℚ)) :=
      jsRound_nonneg (by positivity)
    gcongr
  | true =>
    simp only [hb, if_true]
    have hcpb : 0 ≤ jsRound
        (((s.materialPrices.lookup s.selectedMaterial).getD 0 : ℚ) *
          (62/100) / ((4 : ℕ) : ℚ)) :=
      jsRound_nonneg (by positivity)
    gcongr

/-- Witness for C6: growing the example-1 roof from 2 to 5 squares does
not decrease the total. -/
theorem c6_total_monotone_in_squares_witness :
    (0 : ℕ) < 2 ∧ (2 : ℕ) ≤ 5 ∧ 0 ≤ getSelectedMaterialPrice ex1 ∧
    calculateTotal { ex1 with roofSquares := 2 } ≤
      calculateTotal { ex1 with roofSquares := 5 } :=
  ⟨by norm_num, by norm_num,
    by rw [getSelectedMaterialPrice_ex1]; norm_num,
    c6_total_monotone_in_squares ex1 2 5 (by norm_num) (by norm_num)
      (by rw [getSelectedMaterialPrice_ex1]; norm_num)⟩

/-! ## Rendering order of the two breakdown views

`CostInputScreen`'s itemized summary card (lines 512-641) and the breakdown
table of the server `/api/generate-pdf` route (lines 1919-1944 of
`EstimatePreviewScreen.tsx`), as the ordered lists of line-item labels each
renders, together with the breakdown field each row's amount is read from. -/

/-- Material line-item labels of the client UI's itemized breakdown, in
render order (`CostInputScreen.tsx` summary card rows, lines 516-605). -/
def uiMaterialLabels : List String :=
  ["Shingles/Panels", "Waste Factor (12%)", "Underlayment",
   "Ice & Water Shield", "Drip Edge", "Starter Strip", "Ridge Cap",
   "Flashing", "Roof Vents", "Nails/Fasteners"]

/-- The amounts the UI rows display, read from the canonical `*Total`
fields of the stored breakdown, in the same row order. -/
def uiMaterialAmounts (b : MicroBreakdown) : List ℤ :=
  [b.shingleTotal, b.wasteTotal, b.underlaymentTotal, b.iceShieldTotal,
   b.dripEdgeTotal, b.starterTotal, b.ridgeCapTotal, b.flashingTotal,
   b.ventTotal, b.nailTotal]

/-- Material line-item labels of the server PDF/HTML generator's breakdown
table, in render order (`/api/generate-pdf` template, lines 1924-1930). -/
def pdfMaterialLabels : List String :=
  ["Shingles/Panels", "Waste Factor (12%)", "Underlayment", "Flashing",
   "Nails/Fasteners", "Venting", "Ridge Cap"]

/-- The amounts the PDF table rows display: the template reads the stored
breakdown's legacy fields (`breakdown.shingles || 0`, …) and recomputes
nothing. -/
def pdfMaterialAmounts (b : MicroBreakdown) : List ℤ :=
  [b.shingles, b.waste, b.underlayment, b.flashing, b.nails, b.venting,
   b.ridgeCap]

/-- **C8 counterexample**: the PDF generator does *not* render the same
line-item labels in the same order as the client UI's itemized breakdown —
the two label lists differ. -/
theorem c8_counterexample : pdfMaterialLabels ≠ uiMaterialLabels := by
  decide

/-- **C8 (amended)**: the PDF breakdown table renders only seven material
line items, in the order Shingles/Panels, Waste Factor (12%), Underlayment,
Flashing, Nails/Fasteners, Venting, Ridge Cap — omitting the UI's Ice &
Water Shield, Drip Edge and Starter Strip rows, placing Flashing and
Nails/Fasteners before Ridge Cap, and labelling the vents row "Venting"
instead of "Roof Vents".  It recomputes nothing: each amount is read from
the stored breakdown's legacy fields, which carry exactly the same values
as the `*Total` fields the UI displays. -/
theorem c8_pdf_subset_reordered :
    pdfMaterialLabels =
      ["Shingles/Panels", "Waste Factor (12%)", "Underlayment", "Flashing",
       "Nails/Fasteners", "Venting", "Ridge Cap"] ∧
    "Ice & Water Shield" ∉ pdfMaterialLabels ∧
    "Drip Edge" ∉ pdfMaterialLabels ∧
    "Starter Strip" ∉ pdfMaterialLabels ∧
    "Roof Vents" ∉ pdfMaterialLabels ∧
    (∀ l ∈ pdfMaterialLabels, l = "Venting" ∨ l ∈ uiMaterialLabels) ∧
    (∀ s : CostInputState,
      pdfMaterialAmounts (getMicroBreakdown s) =
        [(getMicroBreakdown s).shingleTotal, (getMicroBreakdown s).wasteTotal,
         (getMicroBreakdown s).underlaymentTotal,
         (getMicroBreakdown s).flashingTotal, (getMicroBreakdown s).nailTotal,
         (getMicroBreakdown s).ventTotal, (getMicroBreakdown s).ridgeCapTotal]) := by
  refine ⟨rfl, by decide, by decide, by decide, by decide, by decide, ?_⟩
  intro s
  rfl

end RoofMaster
